import Mathlib

/-!
Verification development for the CTAPHID transport in `src/hid/hid_device.cc`
(CTAP2 test tool).  The C++ code is shallowly embedded: bytes are `Nat`
(values < 256 where it matters), fixed 64-byte HID frames become a `Frame`
structure holding the 59 bytes that follow the channel id and type byte,
and the blocking HID reads are abstracted as an oracle list of read events
with explicit elapsed times, so the deadline arithmetic of the source is
preserved.
-/

/-- Modelled from the spec: the `Status` enumeration of `constants.h` is not
part of the sources under review; per the spec it is a fixed enumeration of
CTAP2 status bytes (`Ok = 0x00`, the CTAPHID errors, a CTAP2 block, ending at
`Other = 0x7F`).  A status is represented by its raw byte, which also models
the C++ `static_cast` from a received byte to `Status`. -/
abbrev Status := Nat

namespace Status

def kErrNone : Status := 0x00
def kErrInvalidCommand : Status := 0x01
def kErrInvalidParameter : Status := 0x02
def kErrInvalidLength : Status := 0x03
def kErrInvalidSeq : Status := 0x04
def kErrTimeout : Status := 0x05
def kErrChannelBusy : Status := 0x06
def kErrLockRequired : Status := 0x0A
def kErrInvalidChannel : Status := 0x0B
def kErrCborUnexpectedType : Status := 0x11
def kErrInvalidCbor : Status := 0x12
def kErrMissingParameter : Status := 0x14
def kErrLimitExceeded : Status := 0x15
def kErrUnsupportedExtension : Status := 0x16
def kErrCredentialExcluded : Status := 0x19
def kErrProcessing : Status := 0x21
def kErrInvalidCredential : Status := 0x22
def kErrUserActionPending : Status := 0x23
def kErrOperationPending : Status := 0x24
def kErrNoOperations : Status := 0x25
def kErrUnsupportedAlgorithm : Status := 0x26
def kErrOperationDenied : Status := 0x27
def kErrKeyStoreFull : Status := 0x28
def kErrNoOperationPending : Status := 0x2A
def kErrUnsupportedOption : Status := 0x2B
def kErrInvalidOption : Status := 0x2C
def kErrKeepaliveCancel : Status := 0x2D
def kErrNoCredentials : Status := 0x2E
def kErrUserActionTimeout : Status := 0x2F
def kErrNotAllowed : Status := 0x30
def kErrPinInvalid : Status := 0x31
def kErrPinBlocked : Status := 0x32
def kErrPinAuthInvalid : Status := 0x33
def kErrPinAuthBlocked : Status := 0x34
def kErrPinNotSet : Status := 0x35
def kErrPinRequired : Status := 0x36
def kErrPinPolicyViolation : Status := 0x37
def kErrPinTokenExpired : Status := 0x38
def kErrRequestTooLarge : Status := 0x39
def kErrActionTimeout : Status := 0x3A
def kErrUpRequired : Status := 0x3B
def kErrUvBlocked : Status := 0x3C
def kErrOther : Status := 0x7F

end Status

/-- The bytes enumerated in the `switch` of `IsKnownStatusByte`
(`hid_device.cc` lines 90-139), one entry per `case` arm, in source order. -/
def knownStatusBytes : List Nat :=
  [Status.kErrNone, Status.kErrInvalidCommand, Status.kErrInvalidParameter,
   Status.kErrInvalidLength, Status.kErrInvalidSeq, Status.kErrTimeout,
   Status.kErrChannelBusy, Status.kErrLockRequired, Status.kErrInvalidChannel,
   Status.kErrCborUnexpectedType, Status.kErrInvalidCbor,
   Status.kErrMissingParameter, Status.kErrLimitExceeded,
   Status.kErrUnsupportedExtension, Status.kErrCredentialExcluded,
   Status.kErrProcessing, Status.kErrInvalidCredential,
   Status.kErrUserActionPending, Status.kErrOperationPending,
   Status.kErrNoOperations, Status.kErrUnsupportedAlgorithm,
   Status.kErrOperationDenied, Status.kErrKeyStoreFull,
   Status.kErrNoOperationPending, Status.kErrUnsupportedOption,
   Status.kErrInvalidOption, Status.kErrKeepaliveCancel,
   Status.kErrNoCredentials, Status.kErrUserActionTimeout,
   Status.kErrNotAllowed, Status.kErrPinInvalid, Status.kErrPinBlocked,
   Status.kErrPinAuthInvalid, Status.kErrPinAuthBlocked, Status.kErrPinNotSet,
   Status.kErrPinRequired, Status.kErrPinPolicyViolation,
   Status.kErrPinTokenExpired, Status.kErrRequestTooLarge,
   Status.kErrActionTimeout, Status.kErrUpRequired, Status.kErrUvBlocked,
   Status.kErrOther]

/-- `IsKnownStatusByte` (`hid_device.cc` lines 90-139): true exactly on the
bytes listed in the `switch`. -/
def IsKnownStatusByte (b : Nat) : Bool := decide (b ∈ knownStatusBytes)

-- Transaction constants of `hid_device.cc` lines 33-60.
def kInitNonceSize : Nat := 8
def kInitRespSize : Nat := 17
def kMaxDataSize : Nat := 7609
def kIdBroadcast : Nat := 0xFFFFFFFF
/-- `kReceiveTimeout` = 5000 ms, as an integer millisecond count. -/
def kReceiveTimeout : Int := 5000
def kWinkCapabilityMask : Nat := 0x01
def kCborCapabilityMask : Nat := 0x04
def kNmsgCapabilityMask : Nat := 0x08
def kCtap2ErrCborParsingRemovedStatus : Nat := 0x10
def kCtap2ErrInvalidCborTypeRemovedStatus : Nat := 0x13
def kCtap2ErrExtensionFirst : Nat := 0xE0
def kCtap2ErrExtensionLast : Nat := 0xEF
def kCtap2ErrVendorFirst : Nat := 0xF0
def kCtap2ErrVendorLast : Nat := 0xF8

/-- Modelled from the spec: `Frame::kTypeInitMask` from the missing header;
the spec says the high bit of the type byte marks an init frame. -/
def kTypeInitMask : Nat := 0x80

def kCtapHidInit : Nat := kTypeInitMask ||| 6
def kCtapHidWink : Nat := kTypeInitMask ||| 8
def kCtapHidError : Nat := kTypeInitMask ||| 0x3F
def kCtapHidCbor : Nat := kTypeInitMask ||| 0x10
def kCtapHidKeepalive : Nat := kTypeInitMask ||| 0x3B

/-- Modelled from the spec: the 64-byte `Frame` union of the missing header.
`cid` is the 32-bit channel id (host order in memory), `typ` the type byte
(`init.cmd` for init frames, `cont.seq` for continuations), and `rest` the
59 bytes that follow.  The init view overlays `rest` as
`bcnth, bcntl, data[57]`; the continuation view reads all 59 bytes of `rest`
as `data[59]`, exactly as the C++ union does. -/
structure Frame where
  cid : Nat
  typ : Nat
  rest : List Nat
deriving DecidableEq, Repr

/-- Modelled from the spec: `Frame::IsInitType`, true when the type byte has
the init bit set. -/
def Frame.IsInitType (f : Frame) : Bool := (f.typ &&& kTypeInitMask) != 0

/-- Modelled from the spec: `Frame::MaskedSeq`, the low 7 bits of the type
byte. -/
def Frame.MaskedSeq (f : Frame) : Nat := f.typ &&& 0x7F

/-- Modelled from the spec: `Frame::PayloadLength` = `(bcnth << 8) | bcntl`,
big-endian payload length of an init frame. -/
def Frame.PayloadLength (f : Frame) : Nat :=
  (f.rest.getD 0 0) <<< 8 ||| f.rest.getD 1 0

/-- The `init.data` view of the union: the 57 bytes after `bcnth`/`bcntl`. -/
def Frame.initData (f : Frame) : List Nat := f.rest.drop 2

/-- The `cont.data` view of the union: all 59 bytes of `rest`. -/
def Frame.contData (f : Frame) : List Nat := f.rest

/-- The init frame built at the top of `SendCommand` (lines 345-354):
`cmd` ORed with the init mask, big-endian byte count of the full payload,
the first `min (|data|, 57)` payload bytes, and `0xEE` padding. -/
def mkInitFrame (cid cmd : Nat) (data : List Nat) : Frame :=
  { cid := cid
    typ := kTypeInitMask ||| cmd
    rest := [(data.length >>> 8) &&& 255, data.length &&& 255] ++
      (data.take 57 ++ List.replicate (57 - data.length) 0xEE) }

/-- A continuation frame of `SendCommand` (lines 364-367): the sequence byte
(a `uint8_t`, hence mod 256) and the next `min (|chunk|, 59)` payload bytes,
`0xEE`-padded. -/
def mkContFrame (cid seqv : Nat) (chunk : List Nat) : Frame :=
  { cid := cid
    typ := seqv % 256
    rest := chunk.take 59 ++ List.replicate (59 - chunk.length) 0xEE }

/-- The continuation frames of `SendCommand`: the `do`/`while` loop keeps
emitting frames with incrementing sequence numbers while payload remains.
`data` is the payload not yet sent. -/
def contFrames (cid seqv : Nat) (data : List Nat) : List Frame :=
  match data with
  | [] => []
  | b :: tl =>
    mkContFrame cid seqv (b :: tl) :: contFrames cid (seqv + 1) ((b :: tl).drop 59)
termination_by data.length
decreasing_by
  simp
  omega

/-- All frames `SendCommand` (lines 343-371) passes to `SendFrame`, in order:
the init frame followed by the continuation frames for the payload after the
first 57 bytes.  `SendCommand` performs no length check on `data`. -/
def SendFrames (cid cmd : Nat) (data : List Nat) : List Frame :=
  mkInitFrame cid cmd data :: contFrames cid 0 (data.drop 57)

/-- One `SendFrame` call per frame, consulting a write oracle (`true` = the
65-byte `hid_write` succeeded).  On a failed write `SendCommand` returns
`kErrOther` at once; the returned list is the frames actually handed to
`SendFrame`.  The C++ interleaves building and sending; since building is
pure, sending a prefix of the pre-built list is the same behaviour. -/
def SendCommandLoop (writeOk : List Bool) (frames : List Frame) :
    Status × List Frame :=
  match frames with
  | [] => (Status.kErrNone, [])
  | f :: fs =>
    if writeOk.headD true then
      let r := SendCommandLoop writeOk.tail fs
      (r.1, f :: r.2)
    else (Status.kErrOther, [f])

/-- `HidDevice::SendCommand` (lines 343-371): status and attempted writes. -/
def SendCommand (writeOk : List Bool) (cid cmd : Nat) (data : List Nat) :
    Status × List Frame :=
  SendCommandLoop writeOk (SendFrames cid cmd data)

/-- Outcome of one `hid_read_timeout` call at the abstraction boundary:
a full frame arrived, the call failed fatally (`hidapi_status == -1`), or it
returned without data (timeout). -/
inductive ReadResult where
  | ok (f : Frame)
  | ioError
  | noData
deriving DecidableEq, Repr

/-- One blocking read against the HID link: how many milliseconds the call
took, and what it produced.  The oracle list of these events stands for the
device plus bus. -/
structure ReadEvent where
  elapsed : Nat
  result : ReadResult
deriving DecidableEq, Repr

/-- Result of `HidDevice::ReceiveFrame` (lines 430-446), threading the clock
and the unconsumed oracle.  `reads` records the times at which `hid_read`
was actually invoked ([] when the deadline guard fired first). -/
inductive FrameRead where
  | fail (s : Status) (now : Int) (rest : List ReadEvent) (reads : List Int)
  | got (f : Frame) (now : Int) (rest : List ReadEvent) (reads : List Int)
deriving DecidableEq, Repr

/-- `HidDevice::ReceiveFrame` (lines 430-446): a non-positive remaining
timeout is an immediate `kErrTimeout` without touching the HID link;
otherwise one read event is consumed: a full frame is returned, `-1` maps to
`kErrOther`, anything else to `kErrTimeout`.  An exhausted oracle behaves as
a silent device (read times out). -/
def ReceiveFrame (remaining now : Int) (evs : List ReadEvent) : FrameRead :=
  if remaining ≤ 0 then .fail Status.kErrTimeout now evs []
  else
    match evs with
    | [] => .fail Status.kErrTimeout now [] [now]
    | e :: rest =>
      match e.result with
      | .ok f => .got f (now + e.elapsed) rest [now]
      | .ioError => .fail Status.kErrOther (now + e.elapsed) rest [now]
      | .noData => .fail Status.kErrTimeout (now + e.elapsed) rest [now]

def FrameRead.addReads (pre : List Int) : FrameRead → FrameRead
  | .fail s n r rds => .fail s n r (pre ++ rds)
  | .got f n r rds => .got f n r (pre ++ rds)

/-- The first `do`/`while` of `ReceiveCommand` (lines 379-382): read frames
until one arrives on the session channel with the init bit set; any read
failure is returned as-is.  The body of `ReceiveFrame` is inlined to keep the
recursion structural; `skipToInit_step` below proves the inlining correct. -/
def skipToInit (cid : Nat) (deadline now : Int) (evs : List ReadEvent) :
    FrameRead :=
  if deadline - now ≤ 0 then .fail Status.kErrTimeout now evs []
  else
    match evs with
    | [] => .fail Status.kErrTimeout now [] [now]
    | e :: rest =>
      match e.result with
      | .ioError => .fail Status.kErrOther (now + e.elapsed) rest [now]
      | .noData => .fail Status.kErrTimeout (now + e.elapsed) rest [now]
      | .ok f =>
        if f.cid = cid ∧ f.IsInitType then .got f (now + e.elapsed) rest [now]
        else (skipToInit cid deadline (now + e.elapsed) rest).addReads [now]

/-- State returned by the continuation-collecting loop of `ReceiveCommand`. -/
structure ContOut where
  status : Status
  data : List Nat
  now : Int
  rest : List ReadEvent
  reads : List Int
deriving DecidableEq, Repr

def ContOut.addReads (pre : List Int) (c : ContOut) : ContOut :=
  { c with reads := pre ++ c.reads }

/-- The `while (total_len)` loop of `ReceiveCommand` (lines 396-409):
`seqv` is the expected next sequence number (a `uint8_t`, compared mod 256),
`totalLen` the bytes still owed, `acc` the bytes collected so far (the
contents of `*data`).  Frames on a foreign channel are skipped silently; an
init frame on the session channel or a sequence mismatch is `kErrInvalidSeq`.
`ReceiveFrame` is inlined as in `skipToInit` (see `collectCont_step`). -/
def collectCont (cid : Nat) (deadline : Int) (seqv totalLen : Nat)
    (acc : List Nat) (now : Int) (evs : List ReadEvent) : ContOut :=
  if totalLen = 0 then ⟨Status.kErrNone, acc, now, evs, []⟩
  else if deadline - now ≤ 0 then ⟨Status.kErrTimeout, acc, now, evs, []⟩
  else
    match evs with
    | [] => ⟨Status.kErrTimeout, acc, now, [], [now]⟩
    | e :: rest =>
      match e.result with
      | .ioError => ⟨Status.kErrOther, acc, now + e.elapsed, rest, [now]⟩
      | .noData => ⟨Status.kErrTimeout, acc, now + e.elapsed, rest, [now]⟩
      | .ok f =>
        if f.cid ≠ cid then
          (collectCont cid deadline seqv totalLen acc (now + e.elapsed)
            rest).addReads [now]
        else if f.IsInitType then
          ⟨Status.kErrInvalidSeq, acc, now + e.elapsed, rest, [now]⟩
        else if f.MaskedSeq ≠ seqv % 256 then
          ⟨Status.kErrInvalidSeq, acc, now + e.elapsed, rest, [now]⟩
        else
          let fl := min 59 totalLen
          (collectCont cid deadline (seqv + 1) (totalLen - fl)
            (acc ++ f.contData.take fl) (now + e.elapsed) rest).addReads [now]

/-- Result of `HidDevice::ReceiveCommand`: final status, the `*cmd`
out-parameter (`none` when the C++ never assigns it), the final contents of
`*data`, and the clock/oracle/read bookkeeping. -/
structure RcvOut where
  status : Status
  cmd : Option Nat
  data : List Nat
  now : Int
  rest : List ReadEvent
  reads : List Int
deriving DecidableEq, Repr

/-- `HidDevice::ReceiveCommand` (lines 373-412).  `data0` is the content of
`*data` on entry; the function starts with `data->clear()`, so the result
never depends on it.  The deadline `now0 + timeout` is fixed once; every
read uses the remaining budget.  An accepted `kCtapHidError` init frame
returns its first payload byte as the status, before `*cmd` is assigned. -/
def ReceiveCommand (cid : Nat) (timeout now0 : Int) (data0 : List Nat)
    (evs : List ReadEvent) : RcvOut :=
  -- data->clear(); the pre-state data0 is discarded here.
  let _ := data0
  let deadline := now0 + timeout
  match skipToInit cid deadline now0 evs with
  | .fail s n r rds => ⟨s, none, [], n, r, rds⟩
  | .got f n r rds =>
    if f.typ = kCtapHidError then
      ⟨f.initData.getD 0 0, none, [], n, r, rds⟩
    else
      let totalLen := f.PayloadLength
      if kMaxDataSize < totalLen then
        ⟨Status.kErrInvalidLength, some f.typ, [], n, r, rds⟩
      else
        let fl := min 57 totalLen
        let c := collectCont cid deadline 0 (totalLen - fl)
          (f.initData.take fl) n r
        ⟨c.status, some f.typ, c.data, c.now, c.rest, rds ++ c.reads⟩

/-- Modelled from the spec: the `KeepaliveStatus` enumeration of the missing
header; the spec gives byte values `Processing = 1`, `UpNeeded = 2`, any
other payload an error. -/
inductive KeepaliveStatus where
  | kStatusProcessing
  | kStatusUpNeeded
  | kStatusError
deriving DecidableEq, Repr

/-- `HidDevice::ProcessKeepalive` (lines 329-341): the payload must be a
single byte, 1 means processing, 2 means user presence needed, anything else
is an error. -/
def ProcessKeepalive (data : List Nat) : KeepaliveStatus :=
  if data.length ≠ 1 then .kStatusError
  else if data.getD 0 0 = 1 then .kStatusProcessing
  else if data.getD 0 0 = 2 then .kStatusUpNeeded
  else .kStatusError

/-- Result of `ExchangeCbor`: a returned status, or the `CHECK` failure on an
unspecified status byte (a fatal invariant violation that aborts). -/
inductive ExchResult where
  | ret (s : Status)
  | fatal
deriving DecidableEq, Repr

/-- Observable outcome of `ExchangeCbor`: the result, the final contents of
`*response_cbor`, how many times `PromptUser` printed the touch prompt, and
the frames handed to `SendFrame`. -/
structure ExchOut where
  result : ExchResult
  respOut : List Nat
  prompts : Nat
  sentFrames : List Frame
deriving DecidableEq, Repr

/-- The receive section of `ExchangeCbor` (lines 236-294).  The outputs of
the successive `ReceiveCommand` calls are abstracted as an oracle list of
`(status, cmd, data)` triples; an exhausted oracle is modelled as a receive
timeout.  Keepalive frames are drained, prompting the user once at the first
`UpNeeded`; the terminating frame must be a non-empty `CBOR` response, whose
first byte is classified after the remaining bytes are appended to
`*response_cbor`. -/
def ExchangeLoop (resp0 : List Nat) (hasSentPrompt : Bool) (prompts : Nat)
    (replies : List (Status × Nat × List Nat)) : ExchResult × List Nat × Nat :=
  match replies with
  | [] => (.ret Status.kErrTimeout, resp0, prompts)
  | (st, c, d) :: rest =>
    if st ≠ Status.kErrNone then (.ret st, resp0, prompts)
    else if c = kCtapHidKeepalive then
      match ProcessKeepalive d with
      | .kStatusError => (.ret Status.kErrOther, resp0, prompts)
      | .kStatusProcessing => ExchangeLoop resp0 hasSentPrompt prompts rest
      | .kStatusUpNeeded =>
        if hasSentPrompt then ExchangeLoop resp0 hasSentPrompt prompts rest
        else ExchangeLoop resp0 true (prompts + 1) rest
    else if c ≠ kCtapHidCbor then (.ret Status.kErrInvalidCommand, resp0, prompts)
    else if d.isEmpty then (.ret Status.kErrInvalidLength, resp0, prompts)
    else
      -- response_cbor->insert(end, recv_data.begin() + 1, recv_data.end())
      let resp1 := resp0 ++ d.tail
      let b := d.getD 0 0
      if b = kCtap2ErrCborParsingRemovedStatus ∨
          b = kCtap2ErrInvalidCborTypeRemovedStatus then
        (.ret Status.kErrOther, resp1, prompts)
      else if kCtap2ErrExtensionFirst ≤ b ∧ b ≤ kCtap2ErrExtensionLast then
        (.ret Status.kErrOther, resp1, prompts)
      else if kCtap2ErrVendorFirst ≤ b ∧ b ≤ kCtap2ErrVendorLast then
        (.ret Status.kErrOther, resp1, prompts)
      else if IsKnownStatusByte b then (.ret b, resp1, prompts)
      else (.fatal, resp1, prompts)

/-- `HidDevice::ExchangeCbor` (lines 222-295).  `resp0` is the content of
`*response_cbor` on entry (the C++ appends, never clears).  The length of
status byte plus payload is checked against `kMaxDataSize` before anything
is sent; then `[command] ++ payload` goes out as a `CBOR` command and the
replies are processed by `ExchangeLoop`.  `expectUpCheck` only affects
diagnostic printing, not the result. -/
def ExchangeCbor (cid : Nat) (writeOk : List Bool) (command : Nat)
    (payload : List Nat) (expectUpCheck : Bool) (resp0 : List Nat)
    (replies : List (Status × Nat × List Nat)) : ExchOut :=
  let _ := expectUpCheck
  if kMaxDataSize < 1 + payload.length then
    ⟨.ret Status.kErrInvalidLength, resp0, 0, []⟩
  else
    let sendData := command :: payload
    let sc := SendCommand writeOk cid kCtapHidCbor sendData
    if sc.1 ≠ Status.kErrNone then ⟨.ret sc.1, resp0, 0, sc.2⟩
    else
      let r := ExchangeLoop resp0 false 0 replies
      ⟨r.1, r.2.1, r.2.2, sc.2⟩

/-- Session state populated by a successful `HidDevice::Init`
(lines 194-201): channel id and the three capability flags (`msg` is the
negation of the NMSG bit). -/
structure SessionState where
  cid : Nat
  hasWinkCapability : Bool
  hasCborCapability : Bool
  hasMsgCapability : Bool
deriving DecidableEq, Repr

/-- The response loop of `HidDevice::Init` (lines 180-204): read one frame
with the fixed `kReceiveTimeout`; timeouts and transport errors propagate;
a frame is accepted only if it is on the broadcast channel, an `INIT`
command, declares a 17-byte payload and echoes the 8 nonce bytes; any other
frame is discarded and the loop continues.  On acceptance bytes 8..11 are
the new channel id (big-endian) and byte 16 the capabilities.
`ReceiveFrame` is inlined as in `skipToInit` (the fixed positive timeout
makes its deadline guard dead code); see `initLoop_step`. -/
def initLoop (nonce : List Nat) (now : Int) (evs : List ReadEvent) :
    Status × Option SessionState :=
  match evs with
  | [] => (Status.kErrTimeout, none)
  | e :: rest =>
    match e.result with
    | .ioError => (Status.kErrOther, none)
    | .noData => (Status.kErrTimeout, none)
    | .ok f =>
      if f.cid ≠ kIdBroadcast ∨ f.typ ≠ kCtapHidInit ∨
          f.PayloadLength ≠ kInitRespSize ∨
          f.initData.take kInitNonceSize ≠ nonce.take kInitNonceSize then
        initLoop nonce (now + e.elapsed) rest
      else
        (Status.kErrNone,
          some { cid := (f.initData.getD 8 0) <<< 24 |||
                        (f.initData.getD 9 0) <<< 16 |||
                        (f.initData.getD 10 0) <<< 8 |||
                        (f.initData.getD 11 0)
                 hasWinkCapability :=
                   decide ((f.initData.getD 16 0) &&& kWinkCapabilityMask ≠ 0)
                 hasCborCapability :=
                   decide ((f.initData.getD 16 0) &&& kCborCapabilityMask ≠ 0)
                 -- negative feature flag, intentionally inverted in the C++
                 hasMsgCapability :=
                   decide ((f.initData.getD 16 0) &&& kNmsgCapabilityMask = 0) })

/-- `HidDevice::Init` (lines 156-206) after the device is opened: the nonce
(produced by the seeded RNG, abstracted as a parameter) is sent on the
broadcast channel; `writeOk` tells whether that `SendFrame` succeeded; then
`initLoop` processes responses. -/
def HidInit (nonce : List Nat) (writeOk : Bool) (evs : List ReadEvent) :
    Status × Option SessionState :=
  if writeOk then initLoop nonce 0 evs else (Status.kErrOther, none)

-- Bounded bit-level facts about bytes, discharged by evaluation.

/-- A successful instantaneous read event, used to feed sent frames back
into the receiver. -/
def evOf (f : Frame) : ReadEvent := ⟨0, .ok f⟩

/-- The `hid_read` invocation times recorded in a `ReceiveFrame` result. -/
def FrameRead.reads : FrameRead → List Int
  | .fail _ _ _ rds => rds
  | .got _ _ _ rds => rds

/-- The INIT response frame of the spec's handshake scenario: broadcast
channel, INIT command, 17-byte payload = nonce `[0..7]`, new cid
`DE AD BE EF`, four zero bytes, capability byte 0x05. -/
def c2Frame : Frame :=
  ⟨kIdBroadcast, kCtapHidInit,
   [0, 17, 0, 1, 2, 3, 4, 5, 6, 7, 0xDE, 0xAD, 0xBE, 0xEF, 0, 0, 0, 0, 0x05] ++
     List.replicate 40 0xEE⟩

lemma lor_mask_eq_add : ∀ c < 128, 128 ||| c = 128 + c := by decide

lemma lor_mask_and : ∀ c < 128, (128 + c) &&& 128 = 128 := by decide

lemma and_mask_of_lt : ∀ s < 128, s &&& 128 = 0 := by decide

lemma and_seven_bits_of_lt : ∀ s < 128, s &&& 127 = s := by decide

lemma bcnt_roundtrip : ∀ k < 65536, (((k >>> 8) &&& 255) <<< 8) ||| (k &&& 255) = k := by
  intro k hk
  have h255 : ∀ n : Nat, n &&& 255 = n % 256 := by
    intro n
    have := Nat.and_pow_two_sub_one_eq_mod n 8
    norm_num at this
    exact this
  have hsr : k >>> 8 = k / 256 := by
    have := Nat.shiftRight_eq_div_pow k 8
    norm_num at this
    exact this
  have hsl : (k / 256 % 256) <<< 8 = (k / 256 % 256) * 256 := by
    have := Nat.shiftLeft_eq (k / 256 % 256) 8
    norm_num at this
    exact this
  have hor : (k / 256 % 256) * 256 ||| (k % 256) = (k / 256 % 256) * 256 + k % 256 := by
    have h := Nat.mul_add_lt_is_or (b := k % 256) (i := 8) (by omega) (k / 256 % 256)
    norm_num [Nat.mul_comm] at h ⊢
    omega
  rw [hsr, h255, hsl, h255, hor]
  omega

/-- The inlined read in `skipToInit` agrees with `ReceiveFrame`. -/
lemma skipToInit_step (cid : Nat) (deadline now : Int) (evs : List ReadEvent) :
    skipToInit cid deadline now evs =
      match ReceiveFrame (deadline - now) now evs with
      | .fail s n r rds => .fail s n r rds
      | .got f n r rds =>
        if f.cid = cid ∧ f.IsInitType then FrameRead.got f n r rds
        else (skipToInit cid deadline n r).addReads rds := by
  by_cases h : deadline - now ≤ 0
  · unfold skipToInit
    simp [ReceiveFrame, h]
  · cases evs with
    | nil => simp [skipToInit, ReceiveFrame, h]
    | cons e rest =>
      cases hr : e.result with
      | ok f => simp [skipToInit, ReceiveFrame, h, hr]
      | ioError => simp [skipToInit, ReceiveFrame, h, hr]
      | noData => simp [skipToInit, ReceiveFrame, h, hr]

/-- The inlined read in `collectCont` agrees with `ReceiveFrame`. -/
lemma collectCont_step (cid : Nat) (deadline : Int) (seqv totalLen : Nat)
    (acc : List Nat) (now : Int) (evs : List ReadEvent) (h : totalLen ≠ 0) :
    collectCont cid deadline seqv totalLen acc now evs =
      match ReceiveFrame (deadline - now) now evs with
      | .fail s n r rds => ⟨s, acc, n, r, rds⟩
      | .got f n r rds =>
        if f.cid ≠ cid then
          (collectCont cid deadline seqv totalLen acc n r).addReads rds
        else if f.IsInitType then ⟨Status.kErrInvalidSeq, acc, n, r, rds⟩
        else if f.MaskedSeq ≠ seqv % 256 then
          ⟨Status.kErrInvalidSeq, acc, n, r, rds⟩
        else
          let fl := min 59 totalLen
          (collectCont cid deadline (seqv + 1) (totalLen - fl)
            (acc ++ f.contData.take fl) n r).addReads rds := by
  by_cases hd : deadline - now ≤ 0
  · unfold collectCont
    simp [ReceiveFrame, h, hd]
  · cases evs with
    | nil => simp [collectCont, ReceiveFrame, h, hd]
    | cons e rest =>
      cases hr : e.result with
      | ok f => simp [collectCont, ReceiveFrame, h, hd, hr]
      | ioError => simp [collectCont, ReceiveFrame, h, hd, hr]
      | noData => simp [collectCont, ReceiveFrame, h, hd, hr]

/-- The inlined read in `initLoop` agrees with `ReceiveFrame` called with the
fixed positive `kReceiveTimeout` (whose deadline guard can never fire). -/
lemma initLoop_step (nonce : List Nat) (now : Int) (evs : List ReadEvent) :
    initLoop nonce now evs =
      match ReceiveFrame kReceiveTimeout now evs with
      | .fail s _ _ _ => (s, none)
      | .got f n _ _ =>
        if f.cid ≠ kIdBroadcast ∨ f.typ ≠ kCtapHidInit ∨
            f.PayloadLength ≠ kInitRespSize ∨
            f.initData.take kInitNonceSize ≠ nonce.take kInitNonceSize then
          initLoop nonce n (evs.tail)
        else
          (Status.kErrNone,
            some { cid := (f.initData.getD 8 0) <<< 24 |||
                          (f.initData.getD 9 0) <<< 16 |||
                          (f.initData.getD 10 0) <<< 8 |||
                          (f.initData.getD 11 0)
                   hasWinkCapability :=
                     decide ((f.initData.getD 16 0) &&& kWinkCapabilityMask ≠ 0)
                   hasCborCapability :=
                     decide ((f.initData.getD 16 0) &&& kCborCapabilityMask ≠ 0)
                   hasMsgCapability :=
                     decide ((f.initData.getD 16 0) &&& kNmsgCapabilityMask = 0) }) := by
  have hpos : ¬ kReceiveTimeout ≤ 0 := by norm_num [kReceiveTimeout]
  cases evs with
  | nil => simp [initLoop, ReceiveFrame, hpos]
  | cons e rest =>
    cases hr : e.result with
    | ok f => simp [initLoop, ReceiveFrame, hpos, hr]
    | ioError => simp [initLoop, ReceiveFrame, hpos, hr]
    | noData => simp [initLoop, ReceiveFrame, hpos, hr]

lemma contFrames_nil (cid s : Nat) : contFrames cid s [] = [] := by
  simp [contFrames]

lemma contFrames_cons (cid s : Nat) (d : List Nat) (h : d ≠ []) :
    contFrames cid s d = mkContFrame cid s d :: contFrames cid (s + 1) (d.drop 59) := by
  cases d with
  | nil => exact absurd rfl h
  | cons b tl => simp [contFrames]

/-- The number of continuation frames for a residual payload `d` is
`⌈|d| / 59⌉`. -/
lemma contFrames_length (cid : Nat) :
    ∀ n : Nat, ∀ d : List Nat, d.length ≤ n → ∀ s,
      (contFrames cid s d).length = (d.length + 58) / 59 := by
  intro n
  induction n with
  | zero =>
    intro d hd s
    have : d = [] := List.eq_nil_of_length_eq_zero (by omega)
    subst this
    simp [contFrames_nil]
  | succ n ih =>
    intro d hd s
    cases d with
    | nil => simp [contFrames_nil]
    | cons b tl =>
      have hlen : (b :: tl).length = tl.length + 1 := by simp
      have hdrop : ((b :: tl).drop 59).length = tl.length + 1 - 59 := by simp
      rw [contFrames_cons _ _ _ (by simp)]
      simp only [List.length_cons]
      rw [ih ((b :: tl).drop 59) (by omega) (s + 1)]
      rw [hdrop]
      omega

/-- Sequence bytes of the continuation frames: consecutive values starting
at `s` (as long as they stay below 256, where the `uint8_t` cannot wrap). -/
lemma contFrames_typs (cid : Nat) :
    ∀ n : Nat, ∀ d : List Nat, d.length ≤ n → ∀ s,
      s + (d.length + 58) / 59 ≤ 256 →
      (contFrames cid s d).map Frame.typ =
        List.range' s ((d.length + 58) / 59) := by
  intro n
  induction n with
  | zero =>
    intro d hd s hs
    have : d = [] := List.eq_nil_of_length_eq_zero (by omega)
    subst this
    simp [contFrames_nil]
  | succ n ih =>
    intro d hd s hs
    cases d with
    | nil => simp [contFrames_nil]
    | cons b tl =>
      have hlen : (b :: tl).length = tl.length + 1 := by simp
      have hdrop : ((b :: tl).drop 59).length = tl.length + 1 - 59 := by simp
      rw [contFrames_cons _ _ _ (by simp)]
      have hchunks : ((b :: tl).length + 58) / 59 =
          (((b :: tl).drop 59).length + 58) / 59 + 1 := by
        rw [hlen, hdrop]
        omega
      rw [hchunks, List.range'_succ]
      simp only [List.map_cons, List.cons.injEq]
      constructor
      · have hlt : s < 256 := by
          rw [hlen] at hs
          omega
        simp [mkContFrame, Frame.typ, Nat.mod_eq_of_lt hlt]
      · rw [ih ((b :: tl).drop 59) (by omega) (s + 1) (by rw [hdrop]; omega)]

lemma sendCommandLoop_nil_oracle :
    ∀ frames : List Frame,
      SendCommandLoop [] frames = (Status.kErrNone, frames) := by
  intro frames
  induction frames with
  | nil => simp [SendCommandLoop]
  | cons f fs ih => simp [SendCommandLoop, ih]

lemma mkContFrame_not_init (cid s : Nat) (d : List Nat) (hs : s < 128) :
    (mkContFrame cid s d).IsInitType = false := by
  have h256 : s % 256 = s := Nat.mod_eq_of_lt (by omega)
  simp [mkContFrame, Frame.IsInitType, kTypeInitMask, h256, and_mask_of_lt s hs]

lemma mkContFrame_maskedSeq (cid s : Nat) (d : List Nat) (hs : s < 128) :
    (mkContFrame cid s d).MaskedSeq = s := by
  have h256 : s % 256 = s := Nat.mod_eq_of_lt (by omega)
  simp [mkContFrame, Frame.MaskedSeq, h256, and_seven_bits_of_lt s hs]

lemma mkInitFrame_typ (cid cmd : Nat) (d : List Nat) (hc : cmd < 128) :
    (mkInitFrame cid cmd d).typ = 128 + cmd := by
  simp [mkInitFrame, kTypeInitMask, lor_mask_eq_add cmd hc]

lemma mkInitFrame_isInit (cid cmd : Nat) (d : List Nat) (hc : cmd < 128) :
    (mkInitFrame cid cmd d).IsInitType = true := by
  simp [Frame.IsInitType, mkInitFrame_typ cid cmd d hc, kTypeInitMask,
    lor_mask_and cmd hc]

lemma mkInitFrame_payloadLength (cid cmd : Nat) (d : List Nat)
    (h : d.length < 65536) : (mkInitFrame cid cmd d).PayloadLength = d.length := by
  simp only [mkInitFrame, Frame.PayloadLength, List.cons_append,
    List.getD_cons_zero, List.getD_cons_succ]
  exact bcnt_roundtrip d.length h

lemma mkInitFrame_initData (cid cmd : Nat) (d : List Nat) :
    (mkInitFrame cid cmd d).initData =
      d.take 57 ++ List.replicate (57 - d.length) 0xEE := by
  simp [mkInitFrame, Frame.initData]

/-- Taking `min cap |d|` bytes from a `cap`-capacity padded buffer recovers
exactly the copied payload bytes. -/
lemma take_min_of_pad (d : List Nat) (cap : Nat) :
    (d.take cap ++ List.replicate (cap - d.length) 0xEE).take (min cap d.length) =
      d.take cap := by
  by_cases h : d.length ≤ cap
  · rw [Nat.min_eq_right h, List.take_of_length_le h,
      List.take_left' rfl]
  · have hcap : (d.take cap).length = cap := by
      simp
      omega
    rw [Nat.min_eq_left (by omega), List.take_left' hcap]

/-- One-step unfolding of `collectCont` on a successful read. -/
lemma collectCont_cons_ok (cid : Nat) (deadline : Int) (seqv totalLen : Nat)
    (acc : List Nat) (now : Int) (dt : Nat) (f : Frame) (rest : List ReadEvent)
    (h0 : totalLen ≠ 0) (hdl : ¬ deadline - now ≤ 0) :
    collectCont cid deadline seqv totalLen acc now (⟨dt, .ok f⟩ :: rest) =
      if f.cid ≠ cid then
        (collectCont cid deadline seqv totalLen acc (now + (dt : Int))
          rest).addReads [now]
      else if f.IsInitType then
        ⟨Status.kErrInvalidSeq, acc, now + (dt : Int), rest, [now]⟩
      else if f.MaskedSeq ≠ seqv % 256 then
        ⟨Status.kErrInvalidSeq, acc, now + (dt : Int), rest, [now]⟩
      else
        (collectCont cid deadline (seqv + 1) (totalLen - min 59 totalLen)
          (acc ++ f.contData.take (min 59 totalLen)) (now + (dt : Int))
          rest).addReads [now] := by
  conv_lhs => unfold collectCont
  simp [h0, hdl]

/-- One-step unfolding of `skipToInit` on a successful read. -/
lemma skipToInit_cons_ok (cid : Nat) (deadline now : Int) (dt : Nat)
    (f : Frame) (rest : List ReadEvent) (hdl : ¬ deadline - now ≤ 0) :
    skipToInit cid deadline now (⟨dt, .ok f⟩ :: rest) =
      if f.cid = cid ∧ f.IsInitType then
        .got f (now + (dt : Int)) rest [now]
      else (skipToInit cid deadline (now + (dt : Int)) rest).addReads [now] := by
  conv_lhs => unfold skipToInit
  simp [hdl]

/-- Feeding the continuation frames produced by the send loop into the
continuation-collecting loop of `ReceiveCommand` reassembles the residual
payload exactly, as long as at most 128 chunks are in flight (so sequence
bytes stay below 0x80). -/
lemma collectCont_roundtrip (cid : Nat) :
    ∀ n : Nat, ∀ d : List Nat, d.length ≤ n →
      ∀ (s : Nat) (acc : List Nat) (deadline now : Int),
        0 < deadline - now → s + (d.length + 58) / 59 ≤ 128 →
        collectCont cid deadline s d.length acc now
            ((contFrames cid s d).map evOf) =
          ⟨Status.kErrNone, acc ++ d, now, [],
            List.replicate ((d.length + 58) / 59) now⟩ := by
  intro n
  induction n with
  | zero =>
    intro d hd s acc deadline now hdl hs
    have : d = [] := List.eq_nil_of_length_eq_zero (by omega)
    subst this
    simp [contFrames_nil, collectCont]
  | succ n ih =>
    intro d hd s acc deadline now hdl hs
    cases d with
    | nil => simp [contFrames_nil, collectCont]
    | cons b tl =>
      have hlen : (b :: tl).length = tl.length + 1 := by simp
      have hdrop : ((b :: tl).drop 59).length = tl.length + 1 - 59 := by simp
      have hchunks1 : 1 ≤ ((b :: tl).length + 58) / 59 := by
        rw [hlen]
        omega
      have hslt : s < 128 := by omega
      rw [contFrames_cons _ _ _ (by simp), List.map_cons]
      rw [show evOf (mkContFrame cid s (b :: tl)) = ⟨0, .ok (mkContFrame cid s (b :: tl))⟩ from rfl]
      rw [collectCont_cons_ok _ _ _ _ _ _ _ _ _ (by simp) (by omega)]
      rw [if_neg (by simp [mkContFrame])]
      rw [if_neg (by simp [mkContFrame_not_init cid s (b :: tl) hslt])]
      rw [if_neg (by
        simp only [mkContFrame_maskedSeq cid s (b :: tl) hslt,
          Nat.mod_eq_of_lt (show s < 256 by omega)]
        simp)]
      have hmin : (b :: tl).length - min 59 (b :: tl).length =
          ((b :: tl).drop 59).length := by
        rw [hdrop, hlen]
        omega
      have htake : (mkContFrame cid s (b :: tl)).contData.take
          (min 59 (b :: tl).length) = (b :: tl).take 59 := by
        rw [show (mkContFrame cid s (b :: tl)).contData =
            ((b :: tl).take 59 ++ List.replicate (59 - (b :: tl).length) 0xEE)
          from rfl]
        exact take_min_of_pad (b :: tl) 59
      rw [hmin, htake]
      have harith : (((b :: tl).drop 59).length + 58) / 59 + 1 =
          ((b :: tl).length + 58) / 59 := by
        rw [hdrop, hlen]
        omega
      rw [ih ((b :: tl).drop 59) (by omega) (s + 1)
        (acc ++ (b :: tl).take 59) deadline (now + ((0 : Nat) : Int))
        (by push_cast; omega)
        (by rw [hdrop]; rw [hlen] at hs; omega)]
      simp only [ContOut.addReads]
      push_cast
      rw [add_zero]
      have hreads : now :: List.replicate ((((b :: tl).drop 59).length + 58) / 59) now =
          List.replicate (((b :: tl).length + 58) / 59) now := by
        rw [← harith, List.replicate_succ]
      rw [← hreads]
      simp [List.append_assoc, List.take_append_drop]

/-- Full round trip: the frame sequence of `SendCommand`, fed unchanged into
`ReceiveCommand` on the same channel, reassembles the payload; the reported
command byte is the sent one with the init bit set.  Excludes `cmd = 0x3F`,
which the receiver treats as an `ERROR` frame. -/
lemma receiveCommand_sendFrames (cid cmd : Nat) (payload : List Nat)
    (t now0 : Int) (data0 : List Nat) (hcmd : cmd < 128) (herr : cmd ≠ 0x3F)
    (hlen : payload.length ≤ kMaxDataSize) (ht : 0 < t) :
    ReceiveCommand cid t now0 data0 ((SendFrames cid cmd payload).map evOf) =
      ⟨Status.kErrNone, some (128 + cmd), payload, now0, [],
        now0 :: List.replicate ((payload.length - 57 + 58) / 59) now0⟩ := by
  have hk : payload.length ≤ 7609 := by
    simpa [kMaxDataSize] using hlen
  unfold ReceiveCommand SendFrames
  dsimp only
  rw [List.map_cons]
  rw [show evOf (mkInitFrame cid cmd payload) =
    ⟨0, .ok (mkInitFrame cid cmd payload)⟩ from rfl]
  rw [skipToInit_cons_ok _ _ _ _ _ _ (by omega)]
  rw [if_pos ⟨by simp [mkInitFrame], mkInitFrame_isInit cid cmd payload hcmd⟩]
  dsimp only
  rw [if_neg (by
    rw [mkInitFrame_typ cid cmd payload hcmd]
    rw [show kCtapHidError = 191 from by decide]
    omega)]
  rw [mkInitFrame_payloadLength cid cmd payload (by omega)]
  rw [if_neg (by simp [kMaxDataSize]; omega)]
  have htake : (mkInitFrame cid cmd payload).initData.take (min 57 payload.length) =
      payload.take 57 := by
    rw [mkInitFrame_initData]
    exact take_min_of_pad payload 57
  have hmin : payload.length - min 57 payload.length =
      (payload.drop 57).length := by
    simp
    omega
  rw [htake, hmin]
  rw [collectCont_roundtrip cid (payload.drop 57).length (payload.drop 57)
    le_rfl 0 (payload.take 57) (now0 + t) (now0 + ((0 : Nat) : Int))
    (by push_cast; omega)
    (by simp; omega)]
  simp only [List.take_append_drop]
  push_cast
  rw [add_zero]
  simp
  exact mkInitFrame_typ cid cmd payload hcmd

/-- C1, counterexample to the claim as stated: for the 7-bit command
`cmd = 0x01` (PING) the receiver reports command byte `0x81`, not `0x01`
(the init bit is ORed in on send and handed back verbatim on receive); and
for `cmd = 0x3F` the receiver does not yield `(cmd, payload)` at all: the
frame is taken as an `ERROR` frame, its first payload byte (here 7) becomes
the returned status and `*cmd` is never written. -/
theorem c1_counterexample :
    (ReceiveCommand 7 5000 0 []
        ((SendFrames 7 1 []).map evOf)).cmd = some 0x81 ∧
    (0x81 : Nat) ≠ 0x01 ∧
    (ReceiveCommand 7 5000 0 []
        ((SendFrames 7 0x3F [7]).map evOf)).status = 7 ∧
    (ReceiveCommand 7 5000 0 []
        ((SendFrames 7 0x3F [7]).map evOf)).cmd = none := by
  refine ⟨?_, by norm_num, ?_, ?_⟩
  · rw [receiveCommand_sendFrames 7 1 [] 5000 0 [] (by norm_num) (by norm_num)
      (by simp [kMaxDataSize]) (by norm_num)]
  · rw [show (ReceiveCommand 7 5000 0 [] ((SendFrames 7 0x3F [7]).map evOf)) =
      ⟨7, none, [], 0, [], [0]⟩ from ?_]
    unfold ReceiveCommand SendFrames
    dsimp only
    rw [show List.drop 57 [7] = ([] : List Nat) from rfl, contFrames_nil,
      List.map_cons]
    rw [show evOf (mkInitFrame 7 0x3F [7]) =
      ⟨0, .ok (mkInitFrame 7 0x3F [7])⟩ from rfl]
    rw [skipToInit_cons_ok _ _ _ _ _ _ (by norm_num)]
    rw [if_pos ⟨by simp [mkInitFrame],
      mkInitFrame_isInit 7 0x3F [7] (by norm_num)⟩]
    dsimp only
    rw [if_pos (by
      rw [mkInitFrame_typ 7 0x3F [7] (by norm_num)]
      simp [kCtapHidError, kTypeInitMask])]
    norm_num [mkInitFrame, Frame.initData]
  · rw [show (ReceiveCommand 7 5000 0 [] ((SendFrames 7 0x3F [7]).map evOf)) =
      ⟨7, none, [], 0, [], [0]⟩ from ?_]
    unfold ReceiveCommand SendFrames
    dsimp only
    rw [show List.drop 57 [7] = ([] : List Nat) from rfl, contFrames_nil,
      List.map_cons]
    rw [show evOf (mkInitFrame 7 0x3F [7]) =
      ⟨0, .ok (mkInitFrame 7 0x3F [7])⟩ from rfl]
    rw [skipToInit_cons_ok _ _ _ _ _ _ (by norm_num)]
    rw [if_pos ⟨by simp [mkInitFrame],
      mkInitFrame_isInit 7 0x3F [7] (by norm_num)⟩]
    dsimp only
    rw [if_pos (by
      rw [mkInitFrame_typ 7 0x3F [7] (by norm_num)]
      simp [kCtapHidError, kTypeInitMask])]
    norm_num [mkInitFrame, Frame.initData]

/-- C1 (amended): framing round-trip.  For every 7-bit command `cmd` other
than 0x3F (ERROR) and every payload of at most `kMaxDataSize` bytes, feeding
the exact frame sequence produced by `SendCommand` on a channel into
`ReceiveCommand` on the same channel succeeds, yields the payload
byte-identical, and reports the command byte `0x80 ||| cmd` (the sent
command with the init bit set, as the wire carries it) rather than the bare
7-bit `cmd`. -/
theorem c1_framing_roundtrip (cid cmd : Nat) (payload : List Nat)
    (t now0 : Int) (data0 : List Nat) (hcmd : cmd < 128) (herr : cmd ≠ 0x3F)
    (hlen : payload.length ≤ kMaxDataSize) (ht : 0 < t) :
    (ReceiveCommand cid t now0 data0
        ((SendFrames cid cmd payload).map evOf)).status = Status.kErrNone ∧
    (ReceiveCommand cid t now0 data0
        ((SendFrames cid cmd payload).map evOf)).cmd =
      some (kTypeInitMask ||| cmd) ∧
    (ReceiveCommand cid t now0 data0
        ((SendFrames cid cmd payload).map evOf)).data = payload := by
  rw [receiveCommand_sendFrames cid cmd payload t now0 data0 hcmd herr hlen ht]
  refine ⟨rfl, ?_, rfl⟩
  simp only [kTypeInitMask]
  rw [lor_mask_eq_add cmd hcmd]

/-- C1 witness: a two-byte PING payload round-trips (command byte comes back
as 0x81). -/
theorem c1_framing_roundtrip_witness :
    (ReceiveCommand 3 5000 0 []
        ((SendFrames 3 1 [0x11, 0x22]).map evOf)).status = Status.kErrNone ∧
    (ReceiveCommand 3 5000 0 []
        ((SendFrames 3 1 [0x11, 0x22]).map evOf)).cmd =
      some (kTypeInitMask ||| 1) ∧
    (ReceiveCommand 3 5000 0 []
        ((SendFrames 3 1 [0x11, 0x22]).map evOf)).data = [0x11, 0x22] :=
  c1_framing_roundtrip 3 1 [0x11, 0x22] 5000 0 [] (by norm_num) (by norm_num)
    (by decide) (by norm_num)

/-- C7: segmentation boundary.  For a payload of `k` bytes, `SendCommand`
emits exactly `1 + ⌈(k - 57) / 59⌉` frames (`k - 57` truncating at zero):
one init frame then continuation frames whose sequence bytes are exactly
`0, 1, ..., n-1`, never exceeding 0x7F. -/
theorem c7_segmentation (cid cmd : Nat) (payload : List Nat)
    (hlen : payload.length ≤ kMaxDataSize) :
    (SendFrames cid cmd payload).length =
      1 + (payload.length - 57 + 58) / 59 ∧
    (SendFrames cid cmd payload).tail.map Frame.typ =
      List.range ((payload.length - 57 + 58) / 59) ∧
    ∀ f ∈ (SendFrames cid cmd payload).tail, f.typ ≤ 0x7F := by
  have hk : payload.length ≤ 7609 := by simpa [kMaxDataSize] using hlen
  have hdlen : (payload.drop 57).length = payload.length - 57 := by simp
  have hbound : ((payload.drop 57).length + 58) / 59 ≤ 128 := by
    rw [hdlen]
    omega
  have htyps := contFrames_typs cid (payload.drop 57).length (payload.drop 57)
    le_rfl 0 (by omega)
  refine ⟨?_, ?_, ?_⟩
  · simp only [SendFrames, List.length_cons]
    rw [contFrames_length cid (payload.drop 57).length (payload.drop 57)
      le_rfl 0, hdlen]
    omega
  · simp only [SendFrames, List.tail_cons]
    rw [htyps, hdlen, List.range_eq_range']
  · intro f hf
    simp only [SendFrames, List.tail_cons] at hf
    have hm : f.typ ∈ (contFrames cid 0 (payload.drop 57)).map Frame.typ :=
      List.mem_map_of_mem _ hf
    rw [htyps] at hm
    rw [List.mem_range'] at hm
    obtain ⟨i, hi, hx⟩ := hm
    omega

/-- C7 witness: a 200-byte payload yields 1 init + 3 continuation frames
with sequence bytes 0, 1, 2. -/
theorem c7_segmentation_witness :
    (SendFrames 1 1 (List.replicate 200 0)).length =
      1 + ((List.replicate 200 (0 : Nat)).length - 57 + 58) / 59 ∧
    (SendFrames 1 1 (List.replicate 200 0)).tail.map Frame.typ =
      List.range (((List.replicate 200 (0 : Nat)).length - 57 + 58) / 59) ∧
    ∀ f ∈ (SendFrames 1 1 (List.replicate 200 0)).tail, f.typ ≤ 0x7F :=
  c7_segmentation 1 1 (List.replicate 200 0)
    (by simp only [List.length_replicate, kMaxDataSize]; norm_num)

/-- The total frame count of `SendCommand` for any payload length, with no
ceiling: `1 + ceil((k - 57) / 59)` frames (`k - 57` truncating at zero). -/
lemma sendFrames_length (cid cmd : Nat) (payload : List Nat) :
    (SendFrames cid cmd payload).length = 1 + (payload.length - 57 + 58) / 59 := by
  simp only [SendFrames, List.length_cons]
  rw [contFrames_length cid (payload.drop 57).length (payload.drop 57) le_rfl 0]
  simp only [List.length_drop]
  omega

/-- C3, counterexample to the claim as stated: `SendCommand` itself performs
no length check.  For a 7610-byte payload (one over `kMaxDataSize`) it
returns `kErrNone` (with every write succeeding) and hands 130 frames to
`SendFrame`, rather than failing with `kErrInvalidLength` after zero
writes. -/
theorem c3_counterexample :
    (SendCommand [] 1 1 (List.replicate 7610 0)).1 = Status.kErrNone ∧
    (SendCommand [] 1 1 (List.replicate 7610 0)).2.length = 130 ∧
    Status.kErrNone ≠ Status.kErrInvalidLength := by
  have hloop := sendCommandLoop_nil_oracle (SendFrames 1 1 (List.replicate 7610 0))
  have hlen : (SendFrames 1 1 (List.replicate 7610 (0 : Nat))).length = 130 := by
    rw [sendFrames_length, List.length_replicate]
  refine ⟨?_, ?_, by norm_num [Status.kErrNone, Status.kErrInvalidLength]⟩
  · unfold SendCommand
    rw [hloop]
  · unfold SendCommand
    rw [hloop]
    exact hlen

/-- C3 (amended): the length ceiling lives one level up, in `ExchangeCbor`:
when status byte plus payload exceed `kMaxDataSize`, `ExchangeCbor` fails
with `kErrInvalidLength` before `SendCommand` is ever invoked, so zero
frames reach `SendFrame`. -/
theorem c3_exchange_length_ceiling (cid : Nat) (writeOk : List Bool)
    (command : Nat) (payload : List Nat) (expectUpCheck : Bool)
    (resp0 : List Nat) (replies : List (Status × Nat × List Nat))
    (h : kMaxDataSize < 1 + payload.length) :
    ExchangeCbor cid writeOk command payload expectUpCheck resp0 replies =
      ⟨.ret Status.kErrInvalidLength, resp0, 0, []⟩ := by
  unfold ExchangeCbor
  dsimp only
  rw [if_pos h]

/-- C3 witness: a 7609-byte CBOR payload (7610 bytes with the status byte)
is rejected by `ExchangeCbor` with no frame sent. -/
theorem c3_exchange_length_ceiling_witness :
    ExchangeCbor 1 [] 0 (List.replicate 7609 0) false [] [] =
      ⟨.ret Status.kErrInvalidLength, [], 0, []⟩ :=
  c3_exchange_length_ceiling 1 [] 0 (List.replicate 7609 0) false [] []
    (by simp only [List.length_replicate, kMaxDataSize]; norm_num)

/-- C4: sequence and channel discipline of the continuation-collecting loop
of `ReceiveCommand`.  While payload is still owed and the budget is
positive: a frame on a foreign channel is skipped silently (same expected
sequence number, same byte count owed, same collected bytes); an init frame
on the session channel fails with `kErrInvalidSeq`; a continuation frame
whose masked sequence differs from the expected counter (mod 256) fails
with `kErrInvalidSeq`. -/
theorem c4_receive_discipline (cid : Nat) (deadline : Int)
    (seqv totalLen : Nat) (acc : List Nat) (now : Int) (dt : Nat) (f : Frame)
    (rest : List ReadEvent) (htl : totalLen ≠ 0)
    (hdl : ¬ deadline - now ≤ 0) :
    (f.cid ≠ cid →
      collectCont cid deadline seqv totalLen acc now (⟨dt, .ok f⟩ :: rest) =
        (collectCont cid deadline seqv totalLen acc (now + (dt : Int))
          rest).addReads [now]) ∧
    (f.cid = cid → f.IsInitType = true →
      (collectCont cid deadline seqv totalLen acc now
        (⟨dt, .ok f⟩ :: rest)).status = Status.kErrInvalidSeq) ∧
    (f.cid = cid → f.IsInitType = false → f.MaskedSeq ≠ seqv % 256 →
      (collectCont cid deadline seqv totalLen acc now
        (⟨dt, .ok f⟩ :: rest)).status = Status.kErrInvalidSeq) := by
  refine ⟨?_, ?_, ?_⟩
  · intro hcid
    rw [collectCont_cons_ok _ _ _ _ _ _ _ _ _ htl hdl, if_pos hcid]
  · intro hcid hinit
    rw [collectCont_cons_ok _ _ _ _ _ _ _ _ _ htl hdl,
      if_neg (by simp [hcid]), if_pos hinit]
  · intro hcid hinit hseq
    rw [collectCont_cons_ok _ _ _ _ _ _ _ _ _ htl hdl,
      if_neg (by simp [hcid]), if_neg (by simp [hinit]), if_pos hseq]

/-- C4 witness: with 5 bytes still owed on channel 1, a frame on channel 2
is skipped, an init frame (type 0x85) on channel 1 gives `kErrInvalidSeq`,
and a continuation with sequence 3 when 0 is expected gives
`kErrInvalidSeq`. -/
theorem c4_receive_discipline_witness :
    (collectCont 1 5000 0 5 [] 0 (⟨0, .ok ⟨2, 0, List.replicate 59 0⟩⟩ :: []) =
      (collectCont 1 5000 0 5 [] (0 + ((0 : Nat) : Int)) []).addReads [0]) ∧
    (collectCont 1 5000 0 5 [] 0
      (⟨0, .ok ⟨1, 0x85, List.replicate 59 0⟩⟩ :: [])).status =
        Status.kErrInvalidSeq ∧
    (collectCont 1 5000 0 5 [] 0
      (⟨0, .ok ⟨1, 3, List.replicate 59 0⟩⟩ :: [])).status =
        Status.kErrInvalidSeq :=
  ⟨(c4_receive_discipline 1 5000 0 5 [] 0 0 ⟨2, 0, List.replicate 59 0⟩ []
      (by norm_num) (by norm_num)).1 (by norm_num),
   (c4_receive_discipline 1 5000 0 5 [] 0 0 ⟨1, 0x85, List.replicate 59 0⟩ []
      (by norm_num) (by norm_num)).2.1 rfl (by decide),
   (c4_receive_discipline 1 5000 0 5 [] 0 0 ⟨1, 3, List.replicate 59 0⟩ []
      (by norm_num) (by norm_num)).2.2 rfl (by decide) (by decide)⟩

/-- C8 (amended): when the first frame accepted by `ReceiveCommand` on the
session channel carries the ERROR opcode, the first payload byte of that
frame is returned as the status immediately; the `cmd` out-parameter is
never assigned and `*data` is left empty — it was cleared on entry, and no
frame bytes are appended, so any pre-call contents are discarded rather
than preserved. -/
theorem c8_error_shortcircuit (cid : Nat) (t now0 : Int) (data0 : List Nat)
    (evs : List ReadEvent) (f : Frame) (n : Int) (r : List ReadEvent)
    (rds : List Int)
    (hskip : skipToInit cid (now0 + t) now0 evs = .got f n r rds)
    (herr : f.typ = kCtapHidError) :
    ReceiveCommand cid t now0 data0 evs =
      ⟨f.initData.getD 0 0, none, [], n, r, rds⟩ := by
  unfold ReceiveCommand
  dsimp only
  rw [hskip]
  dsimp only
  rw [if_pos herr]

/-- C8 witness: an ERROR frame (type 0xBF) on the session channel with
first payload byte 0x2A makes `ReceiveCommand` return status 0x2A with
`cmd` unassigned and `data` empty. -/
theorem c8_error_shortcircuit_witness :
    ReceiveCommand 9 5000 0 [5]
        [⟨0, .ok ⟨9, 0xBF, 0 :: 1 :: 0x2A :: List.replicate 56 0xEE⟩⟩] =
      ⟨0x2A, none, [], 0 + ((0 : Nat) : Int), [], [0]⟩ := by
  have h := c8_error_shortcircuit 9 5000 0 [5]
    [⟨0, .ok ⟨9, 0xBF, 0 :: 1 :: 0x2A :: List.replicate 56 0xEE⟩⟩]
    ⟨9, 0xBF, 0 :: 1 :: 0x2A :: List.replicate 56 0xEE⟩
    (0 + ((0 : Nat) : Int)) [] [0]
    (by
      rw [skipToInit_cons_ok _ _ _ _ _ _ (by norm_num)]
      rw [if_pos ⟨rfl, by decide⟩])
    (by decide)
  rw [h]
  norm_num [Frame.initData]

/-- C8, counterexample to the claim as stated: the claim says the ERROR
short-circuit happens "without writing the out-parameters cmd and data",
but `ReceiveCommand` clears `*data` unconditionally on entry: calling it
with pre-call contents `[5]` ends with `data = []`, so `data` is written
(cleared) on this path; `cmd` is indeed untouched and the first payload
byte 0x2A is the returned status. -/
theorem c8_counterexample :
    (ReceiveCommand 9 5000 0 [5]
        [⟨0, .ok ⟨9, 0xBF, 0 :: 1 :: 0x2A :: List.replicate 56 0xEE⟩⟩]).status
      = 0x2A ∧
    (ReceiveCommand 9 5000 0 [5]
        [⟨0, .ok ⟨9, 0xBF, 0 :: 1 :: 0x2A :: List.replicate 56 0xEE⟩⟩]).cmd
      = none ∧
    (ReceiveCommand 9 5000 0 [5]
        [⟨0, .ok ⟨9, 0xBF, 0 :: 1 :: 0x2A :: List.replicate 56 0xEE⟩⟩]).data
      ≠ [5] := by
  have hstep : ReceiveCommand 9 5000 0 [5]
      [⟨0, .ok ⟨9, 0xBF, 0 :: 1 :: 0x2A :: List.replicate 56 0xEE⟩⟩] =
      ⟨0x2A, none, [], 0 + ((0 : Nat) : Int), [], [0]⟩ := by
    unfold ReceiveCommand
    dsimp only
    rw [skipToInit_cons_ok _ _ _ _ _ _ (by norm_num)]
    rw [if_pos ⟨rfl, by decide⟩]
    dsimp only
    rw [if_pos (by decide)]
    norm_num [Frame.initData]
  rw [hstep]
  refine ⟨rfl, rfl, by simp⟩

lemma addReads_reads (pre : List Int) (fr : FrameRead) :
    (fr.addReads pre).reads = pre ++ fr.reads := by
  cases fr <;> rfl

/-- Every read started by the init-seeking loop begins strictly before the
deadline. -/
lemma skipToInit_reads_lt :
    ∀ (evs : List ReadEvent) (cid : Nat) (deadline now : Int) (x : Int),
      x ∈ (skipToInit cid deadline now evs).reads → x < deadline := by
  intro evs
  induction evs with
  | nil =>
    intro cid dl now x hx
    unfold skipToInit at hx
    by_cases h : dl - now ≤ 0
    · simp [h, FrameRead.reads] at hx
    · simp [h, FrameRead.reads] at hx
      omega
  | cons e rest ih =>
    intro cid dl now x hx
    unfold skipToInit at hx
    by_cases h : dl - now ≤ 0
    · simp [h, FrameRead.reads] at hx
    · cases hr : e.result with
      | ioError =>
        simp [h, hr, FrameRead.reads] at hx
        omega
      | noData =>
        simp [h, hr, FrameRead.reads] at hx
        omega
      | ok f =>
        by_cases hacc : f.cid = cid ∧ f.IsInitType
        · simp [h, hr, hacc, FrameRead.reads] at hx
          omega
        · rw [if_neg h] at hx
          simp only [hr] at hx
          rw [if_neg hacc, addReads_reads] at hx
          simp only [List.mem_append, List.mem_singleton] at hx
          rcases hx with hx | hx
          · omega
          · exact ih cid dl (now + e.elapsed) x hx

/-- Every read started by the continuation-collecting loop begins strictly
before the deadline. -/
lemma collectCont_reads_lt :
    ∀ (evs : List ReadEvent) (cid : Nat) (deadline : Int)
      (seqv totalLen : Nat) (acc : List Nat) (now : Int) (x : Int),
      x ∈ (collectCont cid deadline seqv totalLen acc now evs).reads →
        x < deadline := by
  intro evs
  induction evs with
  | nil =>
    intro cid dl seqv tl acc now x hx
    unfold collectCont at hx
    by_cases h0 : tl = 0
    · simp [h0] at hx
    · by_cases h : dl - now ≤ 0
      · simp [h0, h] at hx
      · simp [h0, h] at hx
        omega
  | cons e rest ih =>
    intro cid dl seqv tl acc now x hx
    unfold collectCont at hx
    by_cases h0 : tl = 0
    · simp [h0] at hx
    · by_cases h : dl - now ≤ 0
      · simp [h0, h] at hx
      · cases hr : e.result with
        | ioError =>
          simp [h0, h, hr] at hx
          omega
        | noData =>
          simp [h0, h, hr] at hx
          omega
        | ok f =>
          by_cases hcid : f.cid = cid
          · by_cases hinit : f.IsInitType
            · simp [h0, h, hr, hcid, hinit] at hx
              omega
            · by_cases hseq : f.MaskedSeq = seqv % 256
              · simp [h0, h, hr, hcid, hinit, hseq, ContOut.addReads] at hx
                rcases hx with hx | hx
                · omega
                · exact ih cid dl _ _ _ (now + e.elapsed) x hx
              · simp [h0, h, hr, hcid, hinit, hseq] at hx
                omega
          · simp [h0, h, hr, hcid, ContOut.addReads] at hx
            rcases hx with hx | hx
            · omega
            · exact ih cid dl seqv tl acc (now + e.elapsed) x hx

/-- Every read performed during one `ReceiveCommand` call begins strictly
before the single deadline `now0 + timeout` fixed at entry. -/
lemma receiveCommand_reads_lt (cid : Nat) (t now0 : Int) (data0 : List Nat)
    (evs : List ReadEvent) (x : Int)
    (hx : x ∈ (ReceiveCommand cid t now0 data0 evs).reads) : x < now0 + t := by
  unfold ReceiveCommand at hx
  dsimp only at hx
  cases hskip : skipToInit cid (now0 + t) now0 evs with
  | fail s n r rds =>
    rw [hskip] at hx
    dsimp only at hx
    have hmem : x ∈ (skipToInit cid (now0 + t) now0 evs).reads := by
      rw [hskip]
      exact hx
    exact skipToInit_reads_lt evs cid (now0 + t) now0 x hmem
  | got f n r rds =>
    rw [hskip] at hx
    dsimp only at hx
    have hrds : ∀ y ∈ rds, y < now0 + t := by
      intro y hy
      have hmem : y ∈ (skipToInit cid (now0 + t) now0 evs).reads := by
        rw [hskip]
        exact hy
      exact skipToInit_reads_lt evs cid (now0 + t) now0 y hmem
    by_cases herr : f.typ = kCtapHidError
    · simp [herr] at hx
      exact hrds x hx
    · by_cases hbig : kMaxDataSize < f.PayloadLength
      · simp [herr, hbig] at hx
        exact hrds x hx
      · simp [herr, hbig] at hx
        rcases hx with hx | hx
        · exact hrds x hx
        · exact collectCont_reads_lt r cid (now0 + t) 0 _ _ n x hx

/-- C9: timeout budget.  `ReceiveFrame` with a non-positive remaining budget
returns `kErrTimeout` immediately, leaving the read oracle untouched and
invoking no HID read; and in `ReceiveCommand` the deadline `now0 + timeout`
is computed once, every read of the whole multi-frame reception starting
strictly before it — the single timeout bounds the entire reception, not
each frame. -/
theorem c9_timeout_budget :
    (∀ (remaining now : Int) (evs : List ReadEvent), remaining ≤ 0 →
      ReceiveFrame remaining now evs = .fail Status.kErrTimeout now evs []) ∧
    (∀ (cid : Nat) (t now0 : Int) (data0 : List Nat) (evs : List ReadEvent)
        (x : Int),
      x ∈ (ReceiveCommand cid t now0 data0 evs).reads → x < now0 + t) := by
  refine ⟨?_, ?_⟩
  · intro r now evs h
    unfold ReceiveFrame
    rw [if_pos h]
  · intro cid t now0 d0 evs x hx
    exact receiveCommand_reads_lt cid t now0 d0 evs x hx

/-- C9 witness: an exhausted budget returns `kErrTimeout` without reading,
and the one read of a concrete `ReceiveCommand` run with the 5000 ms session
timeout starts before the deadline. -/
theorem c9_timeout_budget_witness :
    ReceiveFrame 0 7 [⟨3, .noData⟩] =
      .fail Status.kErrTimeout 7 [⟨3, .noData⟩] [] ∧
    (0 : Int) < 0 + kReceiveTimeout :=
  ⟨c9_timeout_budget.1 0 7 [⟨3, .noData⟩] le_rfl,
   c9_timeout_budget.2 1 kReceiveTimeout 0 [] [] 0 (by decide)⟩

/-- C2, counterexample to the claim as stated: on the scenario response
(capability byte 0x05) `Init` adopts `cid = 0xDEADBEEF`, `wink = true`,
`cbor = true` — but the msg capability comes out `true`, not `false`:
NMSG is a negative flag and bit 3 of 0x05 is clear, so
`has_msg_capability_ = !(0x05 & 0x08) = true`. -/
theorem c2_init_counterexample :
    HidInit [0, 1, 2, 3, 4, 5, 6, 7] true [⟨0, .ok c2Frame⟩] =
      (Status.kErrNone, some ⟨0xDEADBEEF, true, true, true⟩) ∧
    ¬ (HidInit [0, 1, 2, 3, 4, 5, 6, 7] true [⟨0, .ok c2Frame⟩]).2 =
        some ⟨0xDEADBEEF, true, true, false⟩ := by
  decide

/-- C2 (amended): the INIT handshake on the scenario response returns Ok
and leaves the session with `cid = 0xDEADBEEF`, wink capability true, cbor
capability true, and msg capability true (bit 3 of the capability byte is
the negative NMSG flag and is clear in 0x05). -/
theorem c2_init_capabilities :
    HidInit [0, 1, 2, 3, 4, 5, 6, 7] true [⟨0, .ok c2Frame⟩] =
      (Status.kErrNone,
        some { cid := 0xDEADBEEF, hasWinkCapability := true,
               hasCborCapability := true, hasMsgCapability := true }) := by
  decide

lemma knownStatusBytes_range :
    ∀ b ∈ knownStatusBytes, b ≠ 0x10 ∧ b ≠ 0x13 ∧ b < 0xE0 := by
  decide

lemma isKnown_iff (b : Nat) :
    IsKnownStatusByte b = true ↔ b ∈ knownStatusBytes := by
  simp [IsKnownStatusByte]

/-- With a valid length and successful writes, `ExchangeCbor` sends
`[command] ++ payload` as a CBOR command and hands the replies to
`ExchangeLoop`. -/
lemma exchangeCbor_unfold (cid command : Nat) (payload : List Nat)
    (eu : Bool) (resp0 : List Nat) (replies : List (Status × Nat × List Nat))
    (hlen : ¬ kMaxDataSize < 1 + payload.length) :
    ExchangeCbor cid [] command payload eu resp0 replies =
      ⟨(ExchangeLoop resp0 false 0 replies).1,
       (ExchangeLoop resp0 false 0 replies).2.1,
       (ExchangeLoop resp0 false 0 replies).2.2,
       SendFrames cid kCtapHidCbor (command :: payload)⟩ := by
  unfold ExchangeCbor
  dsimp only
  rw [if_neg hlen]
  rw [show SendCommand [] cid kCtapHidCbor (command :: payload) =
      (Status.kErrNone, SendFrames cid kCtapHidCbor (command :: payload)) from by
    unfold SendCommand
    exact sendCommandLoop_nil_oracle _]
  dsimp only
  rw [if_neg (by simp)]

/-- One terminal `CBOR` reply with non-empty payload: the bytes after the
status byte are appended to the response, then the status byte is
classified. -/
lemma exchangeLoop_terminal (resp0 : List Nat) (hsp : Bool) (pr : Nat)
    (b : Nat) (bs : List Nat) (rest : List (Status × Nat × List Nat)) :
    ExchangeLoop resp0 hsp pr
        ((Status.kErrNone, kCtapHidCbor, b :: bs) :: rest) =
      (if b = kCtap2ErrCborParsingRemovedStatus ∨
          b = kCtap2ErrInvalidCborTypeRemovedStatus then
        (.ret Status.kErrOther, resp0 ++ bs, pr)
      else if kCtap2ErrExtensionFirst ≤ b ∧ b ≤ kCtap2ErrExtensionLast then
        (.ret Status.kErrOther, resp0 ++ bs, pr)
      else if kCtap2ErrVendorFirst ≤ b ∧ b ≤ kCtap2ErrVendorLast then
        (.ret Status.kErrOther, resp0 ++ bs, pr)
      else if IsKnownStatusByte b then (.ret b, resp0 ++ bs, pr)
      else (.fatal, resp0 ++ bs, pr)) := by
  conv_lhs => unfold ExchangeLoop
  rw [if_neg (by simp), if_neg (by decide), if_neg (by simp),
    if_neg (by simp)]
  dsimp only
  simp only [List.tail_cons, List.getD_cons_zero]

lemma exchangeLoop_terminal_prompts (resp0 : List Nat) (hsp : Bool) (pr : Nat)
    (b : Nat) (bs : List Nat) (rest : List (Status × Nat × List Nat)) :
    (ExchangeLoop resp0 hsp pr
        ((Status.kErrNone, kCtapHidCbor, b :: bs) :: rest)).2.2 = pr := by
  rw [exchangeLoop_terminal]
  split_ifs <;> rfl

lemma exchangeLoop_terminal_resp (resp0 : List Nat) (hsp : Bool) (pr : Nat)
    (b : Nat) (bs : List Nat) (rest : List (Status × Nat × List Nat)) :
    (ExchangeLoop resp0 hsp pr
        ((Status.kErrNone, kCtapHidCbor, b :: bs) :: rest)).2.1 =
      resp0 ++ bs := by
  rw [exchangeLoop_terminal]
  split_ifs <;> rfl

/-- C5: status-byte classification of the terminating CBOR frame.  The
deprecated bytes 0x10/0x13, the extension range 0xE0..0xEF and the vendor
range 0xF0..0xF8 all surface as `kErrOther`; any byte of the known
enumeration is returned as the status itself; any other byte is the fatal
`CHECK` (invariant violation). -/
theorem c5_status_classification (cid command : Nat) (payload : List Nat)
    (eu : Bool) (resp0 : List Nat) (b : Nat) (bs : List Nat)
    (hlen : ¬ kMaxDataSize < 1 + payload.length) :
    ((b = 0x10 ∨ b = 0x13) →
      (ExchangeCbor cid [] command payload eu resp0
          [(Status.kErrNone, kCtapHidCbor, b :: bs)]).result =
        .ret Status.kErrOther) ∧
    (0xE0 ≤ b → b ≤ 0xEF →
      (ExchangeCbor cid [] command payload eu resp0
          [(Status.kErrNone, kCtapHidCbor, b :: bs)]).result =
        .ret Status.kErrOther) ∧
    (0xF0 ≤ b → b ≤ 0xF8 →
      (ExchangeCbor cid [] command payload eu resp0
          [(Status.kErrNone, kCtapHidCbor, b :: bs)]).result =
        .ret Status.kErrOther) ∧
    (IsKnownStatusByte b = true →
      (ExchangeCbor cid [] command payload eu resp0
          [(Status.kErrNone, kCtapHidCbor, b :: bs)]).result = .ret b) ∧
    (IsKnownStatusByte b = false → b ≠ 0x10 → b ≠ 0x13 →
      ¬ (0xE0 ≤ b ∧ b ≤ 0xEF) → ¬ (0xF0 ≤ b ∧ b ≤ 0xF8) →
      (ExchangeCbor cid [] command payload eu resp0
          [(Status.kErrNone, kCtapHidCbor, b :: bs)]).result = .fatal) := by
  rw [exchangeCbor_unfold cid command payload eu resp0 _ hlen]
  dsimp only
  rw [exchangeLoop_terminal]
  simp only [kCtap2ErrCborParsingRemovedStatus,
    kCtap2ErrInvalidCborTypeRemovedStatus, kCtap2ErrExtensionFirst,
    kCtap2ErrExtensionLast, kCtap2ErrVendorFirst, kCtap2ErrVendorLast]
  refine ⟨?_, ?_, ?_, ?_, ?_⟩
  · intro h
    rw [if_pos h]
  · intro h1 h2
    rw [if_neg (by omega), if_pos ⟨h1, h2⟩]
  · intro h1 h2
    rw [if_neg (by omega), if_neg (by omega), if_pos ⟨h1, h2⟩]
  · intro h
    have hr := knownStatusBytes_range b ((isKnown_iff b).mp h)
    rw [if_neg (by omega), if_neg (by omega), if_neg (by omega), if_pos h]
  · intro h h1 h2 h3 h4
    rw [if_neg (by omega), if_neg (by omega), if_neg (by omega),
      if_neg (by simp [h])]

/-- C5 witness: the five classification branches at bytes 0x10, 0xE3, 0xF2,
0x00 and 0x80. -/
theorem c5_status_classification_witness :
    (ExchangeCbor 1 [] 0 [] false []
        [(Status.kErrNone, kCtapHidCbor, [0x10])]).result =
      .ret Status.kErrOther ∧
    (ExchangeCbor 1 [] 0 [] false []
        [(Status.kErrNone, kCtapHidCbor, [0xE3])]).result =
      .ret Status.kErrOther ∧
    (ExchangeCbor 1 [] 0 [] false []
        [(Status.kErrNone, kCtapHidCbor, [0xF2])]).result =
      .ret Status.kErrOther ∧
    (ExchangeCbor 1 [] 0 [] false []
        [(Status.kErrNone, kCtapHidCbor, [0x00])]).result = .ret 0x00 ∧
    (ExchangeCbor 1 [] 0 [] false []
        [(Status.kErrNone, kCtapHidCbor, [0x80])]).result = .fatal :=
  ⟨(c5_status_classification 1 0 [] false [] 0x10 [] (by decide)).1
      (Or.inl rfl),
   (c5_status_classification 1 0 [] false [] 0xE3 [] (by decide)).2.1
      (by norm_num) (by norm_num),
   (c5_status_classification 1 0 [] false [] 0xF2 [] (by decide)).2.2.1
      (by norm_num) (by norm_num),
   (c5_status_classification 1 0 [] false [] 0x00 [] (by decide)).2.2.2.1
      (by decide),
   (c5_status_classification 1 0 [] false [] 0x80 [] (by decide)).2.2.2.2
      (by decide) (by norm_num) (by norm_num) (by norm_num) (by norm_num)⟩

/-- One keepalive reply: the single byte is parsed; 1 continues, 2 continues
after prompting once, anything else aborts with `kErrOther`. -/
lemma exchangeLoop_keepalive_step (resp0 : List Nat) (hsp : Bool) (pr : Nat)
    (d : List Nat) (rest : List (Status × Nat × List Nat)) :
    ExchangeLoop resp0 hsp pr
        ((Status.kErrNone, kCtapHidKeepalive, d) :: rest) =
      (match ProcessKeepalive d with
       | .kStatusError => (.ret Status.kErrOther, resp0, pr)
       | .kStatusProcessing => ExchangeLoop resp0 hsp pr rest
       | .kStatusUpNeeded =>
         if hsp then ExchangeLoop resp0 hsp pr rest
         else ExchangeLoop resp0 true (pr + 1) rest) := by
  conv_lhs => unfold ExchangeLoop
  rw [if_neg (by simp), if_pos rfl]

/-- Draining a run of valid keepalives (bytes 1 or 2) just continues the
receive loop; the prompt counter increases exactly once if some keepalive
was `UpNeeded` and no prompt had been sent yet. -/
lemma exchangeLoop_keepalive_run :
    ∀ (kas : List Nat), (∀ b ∈ kas, b = 1 ∨ b = 2) →
      ∀ (resp0 : List Nat) (hsp : Bool) (pr : Nat)
        (rest : List (Status × Nat × List Nat)),
      ExchangeLoop resp0 hsp pr
          (kas.map (fun b => (Status.kErrNone, kCtapHidKeepalive, [b])) ++
            rest) =
        ExchangeLoop resp0 (hsp || kas.contains 2)
          (pr + if !hsp && kas.contains 2 then 1 else 0) rest := by
  intro kas
  induction kas with
  | nil =>
    intro _ resp0 hsp pr rest
    simp
  | cons b tl ih =>
    intro hka resp0 hsp pr rest
    have hb := hka b (by simp)
    have htl : ∀ x ∈ tl, x = 1 ∨ x = 2 := fun x hx => hka x (by simp [hx])
    simp only [List.map_cons, List.cons_append]
    rw [exchangeLoop_keepalive_step]
    rcases hb with hb | hb <;> subst hb
    · rw [show ProcessKeepalive [1] = .kStatusProcessing from by decide]
      dsimp only
      rw [ih htl resp0 hsp pr rest]
      simp [List.contains_cons]
    · rw [show ProcessKeepalive [2] = .kStatusUpNeeded from by decide]
      dsimp only
      cases hsp with
      | true =>
        rw [if_pos rfl]
        rw [ih htl resp0 true pr rest]
        simp [List.contains_cons]
      | false =>
        rw [if_neg (by simp)]
        rw [ih htl resp0 true (pr + 1) rest]
        simp [List.contains_cons]

/-- C6: keepalive drain.  For any run of keepalives with valid bytes
(1 = processing, 2 = user presence needed) followed by the CBOR response,
the touch prompt is emitted exactly once if any keepalive was `UpNeeded`
(and never otherwise), no matter how many `UpNeeded` keepalives arrive;
and a keepalive whose byte is neither 1 nor 2 aborts the exchange with
`kErrOther`. -/
theorem c6_keepalive_drain (cid command : Nat) (payload : List Nat)
    (eu : Bool) (resp0 : List Nat) (kas : List Nat) (d : List Nat)
    (rest : List (Status × Nat × List Nat)) (bb : Nat)
    (hka : ∀ b ∈ kas, b = 1 ∨ b = 2)
    (hlen : ¬ kMaxDataSize < 1 + payload.length) (hd : d ≠ []) :
    (ExchangeCbor cid [] command payload eu resp0
        (kas.map (fun b => (Status.kErrNone, kCtapHidKeepalive, [b])) ++
          [(Status.kErrNone, kCtapHidCbor, d)])).prompts =
      (if kas.contains 2 then 1 else 0) ∧
    (bb ≠ 1 → bb ≠ 2 →
      (ExchangeCbor cid [] command payload eu resp0
          (kas.map (fun b => (Status.kErrNone, kCtapHidKeepalive, [b])) ++
            (Status.kErrNone, kCtapHidKeepalive, [bb]) :: rest)).result =
        .ret Status.kErrOther) := by
  constructor
  · rw [exchangeCbor_unfold cid command payload eu resp0 _ hlen]
    dsimp only
    rw [exchangeLoop_keepalive_run kas hka resp0 false 0 _]
    cases d with
    | nil => exact absurd rfl hd
    | cons b bs =>
      rw [exchangeLoop_terminal_prompts]
      simp
  · intro hb1 hb2
    rw [exchangeCbor_unfold cid command payload eu resp0 _ hlen]
    dsimp only
    rw [exchangeLoop_keepalive_run kas hka resp0 false 0 _]
    rw [exchangeLoop_keepalive_step]
    rw [show ProcessKeepalive [bb] = .kStatusError from by
      simp [ProcessKeepalive, hb1, hb2]]

/-- C6 witness: keepalives 1, 2, 2 then a CBOR response produce exactly one
prompt; a keepalive byte 7 aborts with `kErrOther`. -/
theorem c6_keepalive_drain_witness :
    (ExchangeCbor 1 [] 0 [] true [9]
        (([1, 2, 2] : List Nat).map
            (fun b => (Status.kErrNone, kCtapHidKeepalive, [b])) ++
          [(Status.kErrNone, kCtapHidCbor, [0, 0x81])])).prompts =
      (if ([1, 2, 2] : List Nat).contains 2 then 1 else 0) ∧
    (ExchangeCbor 1 [] 0 [] true [9]
        (([1, 2, 2] : List Nat).map
            (fun b => (Status.kErrNone, kCtapHidKeepalive, [b])) ++
          (Status.kErrNone, kCtapHidKeepalive, [7]) :: [])).result =
      .ret Status.kErrOther :=
  ⟨(c6_keepalive_drain 1 0 [] true [9] [1, 2, 2] [0, 0x81] [] 7 (by decide)
      (by decide) (by decide)).1,
   (c6_keepalive_drain 1 0 [] true [9] [1, 2, 2] [0, 0x81] [] 7 (by decide)
      (by decide) (by decide)).2 (by norm_num) (by norm_num)⟩

/-- C10: whenever `ExchangeCbor` reaches a terminating CBOR frame with a
non-empty payload (after any run of valid keepalives), all payload bytes
after the status byte are appended to `*response_cbor` before the status is
classified — so the caller receives them whatever the status byte is, and
any pre-existing contents of `*response_cbor` are preserved in front. -/
theorem c10_response_append (cid command : Nat) (payload : List Nat)
    (eu : Bool) (resp0 : List Nat) (kas : List Nat) (b : Nat) (bs : List Nat)
    (hka : ∀ x ∈ kas, x = 1 ∨ x = 2)
    (hlen : ¬ kMaxDataSize < 1 + payload.length) :
    (ExchangeCbor cid [] command payload eu resp0
        (kas.map (fun x => (Status.kErrNone, kCtapHidKeepalive, [x])) ++
          [(Status.kErrNone, kCtapHidCbor, b :: bs)])).respOut =
      resp0 ++ bs := by
  rw [exchangeCbor_unfold cid command payload eu resp0 _ hlen]
  dsimp only
  rw [exchangeLoop_keepalive_run kas hka resp0 false 0 _]
  rw [exchangeLoop_terminal_resp]

/-- C10 witness: a vendor status byte 0xF2 (whose result is `kErrOther`)
still delivers the response bytes, appended to the pre-existing contents. -/
theorem c10_response_append_witness :
    (ExchangeCbor 1 [] 0 [] false [9]
        (([] : List Nat).map
            (fun x => (Status.kErrNone, kCtapHidKeepalive, [x])) ++
          [(Status.kErrNone, kCtapHidCbor, [0xF2, 1, 2])])).respOut =
      [9] ++ [1, 2] :=
  c10_response_append 1 0 [] false [9] [] 0xF2 [1, 2] (by decide) (by decide)
